import Mathlib

/-!
Verification of the TeamsMicroservice repository: a shallow embedding of the
`messageCard` Go package (files `message_card.go` and the sender file) and
proofs about its message validation, serialization, webhook-URL validation,
and send/response-processing logic.

Conventions of the embedding:
* Go strings become `String`; byte buffers become `Option String`
  (`nil` buffer = `none`).
* Fallible Go functions returning `error` become `Except e α` with an
  explicit error type; `fmt.Errorf` messages that matter are kept verbatim.
* The mutation of a `*MessageCard` by `Prepare` becomes a function returning
  the updated card.
* The HTTP exchange is modelled by an explicit `HTTPOutcome` parameter
  (transport/timeout failure, or a response with status code, status text
  and body), since the network itself is outside the program.
-/

deriving instance DecidableEq for Except

namespace TeamsMicroservice

/-! ## MessageCard (src/messageCard/message_card.go) -/

/-- Embedding of the Go struct `MessageCard`.  The Go field `Type` is renamed
`Type'` because `Type` is a Lean keyword; `payload` is the private
`*bytes.Buffer` field (excluded from JSON via the `json:"-"` tag), with
`none` standing for the `nil` pointer. -/
structure MessageCard where
  Type' : String
  Context : String
  Title : String
  Text : String
  Color : String
  payload : Option String
deriving DecidableEq, Repr

/-- Embedding of `(*MessageCard).Validate`: an empty `Title` yields the
title-required error, then an empty `Text` yields the text-required error;
otherwise `nil` (here `.ok ()`).  Error values are the exact `fmt.Errorf`
strings. -/
def MessageCard.Validate (card : MessageCard) : Except String Unit :=
  if card.Title = "" then .error "invalid message card: title required"
  else if card.Text = "" then .error "invalid message card: text required"
  else .ok ()

/-- Go `encoding/json` string escaping for one character, as produced by
`json.Marshal` with the default (HTML-escaping) encoder: quote, backslash,
the common control escapes, `<`, `>`, `&` as `\u00XX`, other control
characters as `\u00XX`, everything else verbatim. -/
def goJSONEscapeChar (c : Char) : String :=
  if c = '"' then "\\\""
  else if c = '\\' then "\\\\"
  else if c = '\n' then "\\n"
  else if c = '\r' then "\\r"
  else if c = '\t' then "\\t"
  else if c = '<' then "\\u003c"
  else if c = '>' then "\\u003e"
  else if c = '&' then "\\u0026"
  else if c.toNat < 32 then
    "\\u00" ++ (if c.toNat < 16 then "0" else "1") ++
      String.singleton (Nat.digitChar (c.toNat % 16))
  else String.singleton c

/-- Escapes a whole string as `encoding/json` renders string contents. -/
def goJSONEscape (s : String) : String :=
  String.join (s.toList.map goJSONEscapeChar)

/-- Renders a JSON string literal (quotes plus escaped contents). -/
def jsonStr (s : String) : String := "\"" ++ goJSONEscape s ++ "\""

/-- Field list of `json.Marshal` on a `MessageCard`, in struct-declaration
order with the struct tags of `message_card.go`: `@type`, `@context` always
present; `title`, `text`, `color` carry `omitempty` and are dropped when
empty; the `payload` field is tagged `json:"-"` and never serialized. -/
def marshalFields (card : MessageCard) : List (String × String) :=
  [("@type", card.Type'), ("@context", card.Context)]
    ++ (if card.Title = "" then [] else [("title", card.Title)])
    ++ (if card.Text = "" then [] else [("text", card.Text)])
    ++ (if card.Color = "" then [] else [("color", card.Color)])

/-- Renders a JSON object from a field list, as `json.Marshal` lays it out. -/
def renderObj (fields : List (String × String)) : String :=
  "\x7b" ++
    String.intercalate "," (fields.map (fun p => jsonStr p.1 ++ ":" ++ jsonStr p.2))
    ++ "\x7d"

/-- The byte output of `json.Marshal(card)`. -/
def jsonMarshal (card : MessageCard) : String := renderObj (marshalFields card)

/-- Embedding of `(*MessageCard).Prepare`: marshals the card to JSON, then
either allocates the payload buffer or `Reset`s the existing one, and writes
the JSON into it — so the new buffer contents are exactly the fresh JSON,
never appended to old contents.  `json.Marshal` cannot fail on a struct of
plain string fields and `bytes.Buffer.Write` never returns an error, so the
Go error paths are unreachable; the `Except` shape of the Go signature is
kept. -/
def MessageCard.Prepare (card : MessageCard) : Except String MessageCard :=
  .ok { card with payload := some (jsonMarshal card) }

/-- Embedding of `CreateMessageCard`: the two required constant fields are
set, all others are zero values (`""` / `nil`). -/
def CreateMessageCard : MessageCard :=
  { Type' := "MessageCard"
    Context := "https://schema.org/extensions"
    Title := ""
    Text := ""
    Color := ""
    payload := none }

/-! ## Sender constants and webhook-URL validation (sender file) -/

/-- The Go constant `WebhookURLValidPattern` (a Go regular expression). -/
def WebhookURLValidPattern : String :=
  "^https:\\/\\/(?:.*\\.webhook|outlook)\\.office(?:365)?\\.com"

/-- The Go constant `ExpectedEndpointResponseText`. -/
def ExpectedEndpointResponseText : String := "1"

/-- The Go constant `WebhookSendTimeout = 5 * time.Second`, in nanoseconds
(`time.Second` is `1e9` nanoseconds, the unit of Go `time.Duration`). -/
def WebhookSendTimeout : Nat := 5 * 1000000000

/-- Tests whether the characters begin with `.office.com` or
`.office365.com` — the `\.office(?:365)?\.com` tail of the pattern. -/
def officeTailAt (cs : List Char) : Bool :=
  ".office.com".toList.isPrefixOf cs || ".office365.com".toList.isPrefixOf cs

/-- Tests whether the characters begin with `.webhook` followed by the
office tail — the end of the `.*\.webhook` alternative of the pattern. -/
def dotWebhookAt (cs : List Char) : Bool :=
  ".webhook".toList.isPrefixOf cs && officeTailAt (cs.drop 8)

/-- Scans for a position where `dotWebhookAt` holds, with every character
skipped over being allowed for the regex `.` (any character except a
newline).  This realizes the `.*\.webhook\.office(?:365)?\.com` part of the
pattern: a match exists iff some split puts newline-free text before
`.webhook` and the office tail after it. -/
def scanForWebhook : List Char → Bool
  | [] => false
  | c :: cs => dotWebhookAt (c :: cs) || (decide (c ≠ '\n') && scanForWebhook cs)

/-- Executable semantics of `regexp.MatchString(WebhookURLValidPattern, s)`:
the pattern is anchored at the start by `^` and unanchored at the end, so it
matches iff the string starts with `https://` followed by either
`outlook` plus the office tail, or any newline-free run plus `.webhook`
plus the office tail; anything may follow the matched part. -/
def regexMatch (s : String) : Bool :=
  let cs := s.toList
  "https://".toList.isPrefixOf cs &&
    (let rest := cs.drop 8
     ("outlook".toList.isPrefixOf rest && officeTailAt (rest.drop 7))
       || scanForWebhook rest)

/-- Model of Go `net/url.Parse` succeeding on the input string: `Parse`
rejects strings containing ASCII control characters (below `0x20` or
`0x7f`) and strings with a missing protocol scheme such as those starting
with `:`; other, rarer failure modes (invalid percent escapes, malformed
ports) do not arise for the inputs considered here. -/
def urlParseOk (s : String) : Bool :=
  (!([':'].isPrefixOf s.toList)) &&
    s.toList.all (fun c => !(c.toNat < 32 || c.toNat == 127))

/-- Characters after the first `://` of the string, or `[]` if none. -/
def afterSchemeSep : List Char → List Char
  | [] => []
  | c :: cs =>
      if c = ':' && "//".toList.isPrefixOf cs then cs.drop 2
      else afterSchemeSep cs

/-- Host component of a URL of the form `scheme://host/...` as
`net/url.Parse` extracts it: the text after the first `://` up to the first
`/`, `?` or `#` (the inputs considered carry no userinfo or port). -/
def urlHost (s : String) : String :=
  String.mk ((afterSchemeSep s.toList).takeWhile
    fun c => c ≠ '/' && c ≠ '?' && c ≠ '#')

/-- Errors of `ValidateWebhook`: the `url.Parse` failure wrap, or the
`ErrWebHookURLPattern` wrap carrying the parsed URL (for the URLs used here
`urlLink.String()` round-trips to the input). -/
inductive WebhookError where
  | parseFailure (url : String)
  | patternMismatch (url : String)
deriving DecidableEq, Repr

/-- Embedding of `(*TeamsClient).ValidateWebhook`: first `url.Parse` (a
failure is returned immediately), then the single pattern
`WebhookURLValidPattern` is matched against the whole input string; a match
returns `nil`, otherwise the `ErrWebHookURLPattern` error is returned. -/
def ValidateWebhook (webhookURL : String) : Except WebhookError Unit :=
  if urlParseOk webhookURL then
    if regexMatch webhookURL then .ok ()
    else .error (.patternMismatch webhookURL)
  else .error (.parseFailure webhookURL)

/-- Definition following the spec's words, for comparison with
`ValidateWebhook` in claim C2: the string parses as a URL whose scheme is
`https` and whose host matches `*.webhook.office.com`,
`*.webhook.office365.com`, `outlook.office.com` or
`outlook.office365.com`. -/
def specValidWebhook (s : String) : Bool :=
  urlParseOk s && "https://".toList.isPrefixOf s.toList &&
    (let h := (urlHost s).toList
     ".webhook.office.com".toList.isSuffixOf h ||
       ".webhook.office365.com".toList.isSuffixOf h ||
       h == "outlook.office.com".toList || h == "outlook.office365.com".toList)

/-- Declarative form of the `\.office(?:365)?\.com` tail of the pattern. -/
def OfficeTailSpec (t : List Char) : Prop :=
  (∃ u, t = ".office.com".toList ++ u) ∨ (∃ u, t = ".office365.com".toList ++ u)

/-- Declarative match semantics of the anchored Go pattern
`WebhookURLValidPattern`: the string decomposes as `https://` followed by
either `outlook` plus the office tail, or an arbitrary newline-free run
plus `.webhook` plus the office tail; trailing text is unconstrained. -/
def RegexMatchSpec (s : String) : Prop :=
  ∃ rest, s.toList = "https://".toList ++ rest ∧
    ((∃ t, rest = "outlook".toList ++ t ∧ OfficeTailSpec t) ∨
     (∃ x t, rest = x ++ ".webhook".toList ++ t ∧ (∀ c ∈ x, c ≠ '\n') ∧
       OfficeTailSpec t))

/-! ## Response processing and sending (sender file) -/

/-- Go `unicode.IsSpace` on the ASCII range (the only characters arising
here): space, tab, newline, vertical tab, form feed, carriage return. -/
def goIsSpace (c : Char) : Bool :=
  c = ' ' || c = '\t' || c = '\n' || c = '\x0b' || c = '\x0c' || c = '\r'

/-- Model of Go `strings.TrimSpace`: drops leading and trailing whitespace
characters. -/
def goTrimSpace (s : String) : String :=
  String.mk
    (((s.toList.dropWhile goIsSpace).reverse.dropWhile goIsSpace).reverse)

/-- Errors of `processResponse`: status `≥ 299` yields the endpoint error
carrying `response.Status` and the body text; a body different from the
expected token yields the `ErrInvalidResponseText` wrap carrying the body. -/
inductive ProcessError where
  | endpointError (status : String) (body : String)
  | invalidResponseText (body : String)
deriving DecidableEq, Repr

/-- Embedding of `processResponse` after the body has been read into
`body` (`response.StatusCode` is `statusCode`, `response.Status` is
`status`): status code `≥ 299` fails with the endpoint error; otherwise the
body is compared — untrimmed — against
`strings.TrimSpace(ExpectedEndpointResponseText)`, failing with the
invalid-response-text error on mismatch and succeeding with the body
otherwise. -/
def processResponse (statusCode : Nat) (status : String) (body : String) :
    Except ProcessError String :=
  if statusCode ≥ 299 then .error (.endpointError status body)
  else if body ≠ goTrimSpace ExpectedEndpointResponseText then
    .error (.invalidResponseText body)
  else .ok body

/-- The steps of a send, in the order `sendWithContext` performs them. -/
inductive SendStep where
  | validateURL
  | validateMsg
  | prepareMsg
  | prepareReq
  | httpCall
  | processResp
deriving DecidableEq, Repr, BEq

/-- Outcome of the single `client.HTTPClient().Do(request)` call: a
transport-level failure (including a context timeout or cancellation while
in flight), or a response with its status code, status text and body. -/
inductive HTTPOutcome where
  | transportError (msg : String)
  | response (statusCode : Nat) (status : String) (body : String)
deriving DecidableEq, Repr

/-- Errors of `sendWithContext`, one distinct kind per step (each Go branch
wraps the inner error with its own `fmt.Errorf` message). -/
inductive SendError where
  | invalidDestination (e : WebhookError)
  | invalidMessage (e : String)
  | prepareFailure (e : String)
  | requestPrepFailure (url : String)
  | sendFailure (msg : String)
  | responseFailure (e : ProcessError)
deriving DecidableEq, Repr

/-- Embedding of `sendWithContext`, instrumented with the card state after
the call and the list of steps performed, in order.  The Go sequence is:
`ValidateWebhook`, `message.Validate`, `message.Prepare`,
`prepareRequest` (which re-parses the URL via
`http.NewRequestWithContext`), the single `Do` call, then
`processResponse`; each failure returns immediately with its own error
wrap and no later step runs. -/
def sendWithContext (webhookURL : String) (card : MessageCard)
    (outcome : HTTPOutcome) :
    Except SendError Unit × MessageCard × List SendStep :=
  match ValidateWebhook webhookURL with
  | .error e => (.error (.invalidDestination e), card, [.validateURL])
  | .ok _ =>
    match card.Validate with
    | .error e => (.error (.invalidMessage e), card, [.validateURL, .validateMsg])
    | .ok _ =>
      match card.Prepare with
      | .error e =>
          (.error (.prepareFailure e), card,
            [.validateURL, .validateMsg, .prepareMsg])
      | .ok card' =>
        if urlParseOk webhookURL then
          match outcome with
          | .transportError m =>
              (.error (.sendFailure m), card',
                [.validateURL, .validateMsg, .prepareMsg, .prepareReq, .httpCall])
          | .response statusCode status body =>
            match processResponse statusCode status body with
            | .error e =>
                (.error (.responseFailure e), card',
                  [.validateURL, .validateMsg, .prepareMsg, .prepareReq,
                    .httpCall, .processResp])
            | .ok _ =>
                (.ok (), card',
                  [.validateURL, .validateMsg, .prepareMsg, .prepareReq,
                    .httpCall, .processResp])
        else
          (.error (.requestPrepFailure webhookURL), card',
            [.validateURL, .validateMsg, .prepareMsg, .prepareReq])

/-- Embedding of `(*TeamsClient).Send`: it creates one
`context.WithTimeout(context.Background(), WebhookSendTimeout)` bounding
the whole exchange and makes a single `sendWithContext` call with it — no
retry; a timeout or cancellation while in flight surfaces through the `Do`
call as a transport error. -/
def Send (webhookURL : String) (card : MessageCard) (outcome : HTTPOutcome) :
    Except SendError Unit × MessageCard × List SendStep :=
  sendWithContext webhookURL card outcome

/-! ## Sample values used by concrete witnesses -/

/-- A webhook URL accepted by `ValidateWebhook`. -/
def goodURL : String := "https://foo.webhook.office.com/x"

/-- A card created by `CreateMessageCard` with title and text filled in. -/
def sampleCard : MessageCard := { CreateMessageCard with Title := "T", Text := "X" }

/-- The sample card after one `Prepare`. -/
def sampleCardPrepared : MessageCard :=
  { sampleCard with payload := some (jsonMarshal sampleCard) }

/-- The sample card after two `Prepare` calls. -/
def sampleCardPrepared2 : MessageCard :=
  { sampleCardPrepared with payload := some (jsonMarshal sampleCardPrepared) }

/-! ## Helper lemmas -/

/-- Unfolding of a successful `ValidateWebhook`: both the parse and the
pattern match succeeded. -/
theorem validateWebhook_ok_iff (url : String) :
    ValidateWebhook url = .ok () ↔ urlParseOk url = true ∧ regexMatch url = true := by
  by_cases h1 : urlParseOk url = true <;> by_cases h2 : regexMatch url = true <;>
    simp [ValidateWebhook, h1, h2]

/-- A webhook-validation failure makes `sendWithContext` abort at once. -/
theorem send_invalidURL (url : String) (card : MessageCard) (outcome : HTTPOutcome)
    (e : WebhookError) (h : ValidateWebhook url = .error e) :
    sendWithContext url card outcome =
      (.error (.invalidDestination e), card, [.validateURL]) := by
  simp [sendWithContext, h]

/-- A message-validation failure aborts after the two validations. -/
theorem send_invalidMsg (url : String) (card : MessageCard) (outcome : HTTPOutcome)
    (e : String) (h1 : ValidateWebhook url = .ok ()) (h2 : card.Validate = .error e) :
    sendWithContext url card outcome =
      (.error (.invalidMessage e), card, [.validateURL, .validateMsg]) := by
  simp [sendWithContext, h1, h2]

/-- A transport failure (including timeout) surfaces after the single
`Do` call, with the card prepared. -/
theorem send_transport (url : String) (card : MessageCard) (m : String)
    (h1 : ValidateWebhook url = .ok ()) (h2 : card.Validate = .ok ()) :
    sendWithContext url card (.transportError m) =
      (.error (.sendFailure m), { card with payload := some (jsonMarshal card) },
        [.validateURL, .validateMsg, .prepareMsg, .prepareReq, .httpCall]) := by
  have hp : urlParseOk url = true := ((validateWebhook_ok_iff url).mp h1).1
  simp [sendWithContext, h1, h2, MessageCard.Prepare, hp]

/-- A response that `processResponse` rejects is wrapped and returned. -/
theorem send_response_err (url : String) (card : MessageCard)
    (statusCode : Nat) (status body : String) (e : ProcessError)
    (h1 : ValidateWebhook url = .ok ()) (h2 : card.Validate = .ok ())
    (hp : processResponse statusCode status body = .error e) :
    sendWithContext url card (.response statusCode status body) =
      (.error (.responseFailure e), { card with payload := some (jsonMarshal card) },
        [.validateURL, .validateMsg, .prepareMsg, .prepareReq, .httpCall,
          .processResp]) := by
  have hu : urlParseOk url = true := ((validateWebhook_ok_iff url).mp h1).1
  simp [sendWithContext, h1, h2, MessageCard.Prepare, hu, hp]

/-- A response that `processResponse` accepts yields success. -/
theorem send_response_ok (url : String) (card : MessageCard)
    (statusCode : Nat) (status body r : String)
    (h1 : ValidateWebhook url = .ok ()) (h2 : card.Validate = .ok ())
    (hp : processResponse statusCode status body = .ok r) :
    sendWithContext url card (.response statusCode status body) =
      (.ok (), { card with payload := some (jsonMarshal card) },
        [.validateURL, .validateMsg, .prepareMsg, .prepareReq, .httpCall,
          .processResp]) := by
  have hu : urlParseOk url = true := ((validateWebhook_ok_iff url).mp h1).1
  simp [sendWithContext, h1, h2, MessageCard.Prepare, hu, hp]

/-- Boolean list-prefix test as an append decomposition. -/
theorem isPrefixOf_eq_append {l₁ l₂ : List Char} :
    l₁.isPrefixOf l₂ = true ↔ ∃ t, l₂ = l₁ ++ t := by
  rw [List.isPrefixOf_iff_prefix]
  exact ⟨fun ⟨t, h⟩ => ⟨t, h.symm⟩, fun ⟨t, h⟩ => ⟨t, h.symm⟩⟩

/-- The office-tail test agrees with its declarative form. -/
theorem officeTailAt_iff (t : List Char) :
    officeTailAt t = true ↔ OfficeTailSpec t := by
  rw [officeTailAt, Bool.or_eq_true, isPrefixOf_eq_append, isPrefixOf_eq_append]
  exact Iff.rfl

/-- The scan of `scanForWebhook` finds exactly the decompositions the
`.*\.webhook` part of the pattern describes. -/
theorem scanForWebhook_iff (cs : List Char) :
    scanForWebhook cs = true ↔
      ∃ x t, cs = x ++ ".webhook".toList ++ t ∧ (∀ c ∈ x, c ≠ '\n') ∧
        officeTailAt t = true := by
  induction cs with
  | nil =>
      simp only [scanForWebhook, Bool.false_eq_true, false_iff]
      rintro ⟨x, t, h, -, -⟩
      cases x <;> simp at h
  | cons c cs ih =>
      simp only [scanForWebhook, Bool.or_eq_true, Bool.and_eq_true,
        decide_eq_true_eq, ih]
      constructor
      · rintro (hd | ⟨hc, x, t, he, hx, ht⟩)
        · rw [dotWebhookAt, Bool.and_eq_true] at hd
          obtain ⟨h1, h2⟩ := hd
          obtain ⟨t, he⟩ := isPrefixOf_eq_append.mp h1
          refine ⟨[], t, by simpa using he, by simp, ?_⟩
          have hd8 : (c :: cs).drop 8 = t := by rw [he]; simp
          rwa [hd8] at h2
        · refine ⟨c :: x, t, by simp [he], ?_, ht⟩
          intro d hd
          rcases List.mem_cons.mp hd with rfl | hd'
          · exact hc
          · exact hx d hd'
      · rintro ⟨x, t, he, hx, ht⟩
        cases x with
        | nil =>
            left
            have he' : c :: cs = ".webhook".toList ++ t := by simpa using he
            have h1 : ".webhook".toList.isPrefixOf (c :: cs) = true :=
              isPrefixOf_eq_append.mpr ⟨t, he'⟩
            have hd8 : (c :: cs).drop 8 = t := by rw [he']; simp
            rw [dotWebhookAt, Bool.and_eq_true, hd8]
            exact ⟨h1, ht⟩
        | cons d x' =>
            right
            have he' : c = d ∧ cs = x' ++ ".webhook".toList ++ t := by
              simpa using he
            obtain ⟨rfl, hcs⟩ := he'
            refine ⟨hx c (by simp), x', t, hcs, ?_, ht⟩
            intro d' hd'
            exact hx d' (by simp [hd'])

/-- Full declarative characterization of the regex match. -/
theorem regexMatch_iff (s : String) : regexMatch s = true ↔ RegexMatchSpec s := by
  rw [regexMatch, RegexMatchSpec]
  simp only [Bool.and_eq_true, Bool.or_eq_true, isPrefixOf_eq_append]
  constructor
  · rintro ⟨⟨rest, hrest⟩, h2⟩
    refine ⟨rest, hrest, ?_⟩
    have hdrop : s.toList.drop 8 = rest := by rw [hrest]; simp
    rw [hdrop] at h2
    rcases h2 with ⟨⟨t, ht⟩, hofc⟩ | hscan
    · left
      have hd7 : rest.drop 7 = t := by rw [ht]; simp
      exact ⟨t, ht, (officeTailAt_iff t).mp (hd7 ▸ hofc)⟩
    · right
      obtain ⟨x, t, hxt, hx, ht⟩ := (scanForWebhook_iff rest).mp hscan
      exact ⟨x, t, hxt, hx, (officeTailAt_iff t).mp ht⟩
  · rintro ⟨rest, hrest, hcase⟩
    refine ⟨⟨rest, hrest⟩, ?_⟩
    have hdrop : s.toList.drop 8 = rest := by rw [hrest]; simp
    rw [hdrop]
    rcases hcase with ⟨t, ht, hofc⟩ | ⟨x, t, hxt, hx, hofc⟩
    · left
      have hd7 : rest.drop 7 = t := by rw [ht]; simp
      exact ⟨⟨t, ht⟩, hd7 ▸ (officeTailAt_iff t).mpr hofc⟩
    · right
      exact (scanForWebhook_iff rest).mpr ⟨x, t, hxt, hx,
        (officeTailAt_iff t).mpr hofc⟩

/-! ## Claims -/

/-- C3: `Validate` succeeds iff `Title` and `Text` are both non-empty; an
empty `Title` fails with the title-required error; a non-empty `Title` with
an empty `Text` fails with the text-required error; no other field (in
particular `Color`) affects the result. -/
theorem claim_C3 (card : MessageCard) :
    (card.Validate = .ok () ↔ card.Title ≠ "" ∧ card.Text ≠ "") ∧
    (card.Title = "" →
      card.Validate = .error "invalid message card: title required") ∧
    (card.Title ≠ "" → card.Text = "" →
      card.Validate = .error "invalid message card: text required") ∧
    (∀ card' : MessageCard, card'.Title = card.Title → card'.Text = card.Text →
      card'.Validate = card.Validate) := by
  refine ⟨?_, ?_, ?_, ?_⟩
  · by_cases h1 : card.Title = "" <;> by_cases h2 : card.Text = "" <;>
      simp [MessageCard.Validate, h1, h2]
  · intro h
    simp [MessageCard.Validate, h]
  · intro h1 h2
    simp [MessageCard.Validate, h1, h2]
  · intro card' h1 h2
    simp [MessageCard.Validate, h1, h2]

/-- Witness for C3 at concrete cards: the title error, the text error, and
the irrelevance of `Color`. -/
theorem claim_C3_witness :
    ({ CreateMessageCard with Title := "", Text := "x" } : MessageCard).Validate
        = .error "invalid message card: title required" ∧
    ({ CreateMessageCard with Title := "t", Text := "" } : MessageCard).Validate
        = .error "invalid message card: text required" ∧
    ({ CreateMessageCard with Title := "t", Text := "x", Color := "red" } :
        MessageCard).Validate
      = ({ CreateMessageCard with Title := "t", Text := "x" } :
          MessageCard).Validate :=
  ⟨(claim_C3 { CreateMessageCard with Title := "", Text := "x" }).2.1 rfl,
   (claim_C3 { CreateMessageCard with Title := "t", Text := "" }).2.2.1
     (by decide) rfl,
   (claim_C3 { CreateMessageCard with Title := "t", Text := "x" }).2.2.2
     { CreateMessageCard with Title := "t", Text := "x", Color := "red" } rfl rfl⟩

/-- C4: a response with status code ≥ 299 always fails with the endpoint
error carrying the response status and the full body text, whatever the
body; a response with status code < 299 never produces that error kind. -/
theorem claim_C4 (statusCode : Nat) (status body : String) :
    (statusCode ≥ 299 →
      processResponse statusCode status body
        = .error (.endpointError status body)) ∧
    (statusCode < 299 →
      ∀ st b, processResponse statusCode status body
        ≠ .error (.endpointError st b)) := by
  constructor
  · intro h
    simp [processResponse, h]
  · intro h st b
    have h' : ¬ statusCode ≥ 299 := by omega
    by_cases hb : body = goTrimSpace ExpectedEndpointResponseText <;>
      simp [processResponse, h', hb]

/-- Witness for C4 at status 400 and at status 200. -/
theorem claim_C4_witness :
    processResponse 400 "400 Bad Request" "oops"
      = .error (.endpointError "400 Bad Request" "oops") ∧
    processResponse 200 "200 OK" "1" ≠ .error (.endpointError "200 OK" "1") :=
  ⟨(claim_C4 400 "400 Bad Request" "oops").1 (by omega),
   (claim_C4 200 "200 OK" "1").2 (by omega) "200 OK" "1"⟩

/-- C6: on any card created by `CreateMessageCard` (fields filled in
afterwards), the serialized JSON object carries the constant `@type`
`"MessageCard"` and constant `@context` `"https://schema.org/extensions"`,
and `Title`, `Text`, `Color` appear verbatim under `title`, `text`, `color`
when non-empty and are omitted when empty; `Prepare` stores exactly the
rendering of those fields, shown concretely on a sample card. -/
theorem claim_C6 (t x c : String) :
    marshalFields { CreateMessageCard with Title := t, Text := x, Color := c } =
      [("@type", "MessageCard"), ("@context", "https://schema.org/extensions")]
        ++ (if t = "" then [] else [("title", t)])
        ++ (if x = "" then [] else [("text", x)])
        ++ (if c = "" then [] else [("color", c)]) ∧
    ({ CreateMessageCard with Title := t, Text := x, Color := c } :
        MessageCard).Prepare
      = .ok { CreateMessageCard with
                Title := t, Text := x, Color := c,
                payload := some (renderObj (marshalFields
                  { CreateMessageCard with Title := t, Text := x, Color := c })) } ∧
    jsonMarshal sampleCard =
      "\x7b\"@type\":\"MessageCard\",\"@context\":\"https://schema.org/extensions\",\"title\":\"T\",\"text\":\"X\"\x7d" :=
  ⟨rfl, rfl, by decide⟩

/-- C7: serialization is deterministic and the payload buffer is replaced,
not appended to: preparing an already-prepared card (unchanged fields)
leaves the card — in particular its payload bytes — identical, and the
payload after one `Prepare` is exactly the card's JSON. -/
theorem claim_C7 (card card' card'' : MessageCard)
    (h1 : card.Prepare = .ok card') (h2 : card'.Prepare = .ok card'') :
    card'' = card' ∧ card'.payload = some (jsonMarshal card) := by
  simp only [MessageCard.Prepare, Except.ok.injEq] at h1 h2
  subst h1
  subst h2
  exact ⟨rfl, rfl⟩

/-- Witness for C7: two preparations of the sample card. -/
theorem claim_C7_witness :
    sampleCardPrepared2 = sampleCardPrepared ∧
    sampleCardPrepared.payload = some (jsonMarshal sampleCard) :=
  claim_C7 sampleCard sampleCardPrepared sampleCardPrepared2 rfl rfl

/-- C9: with both `Title` and `Text` empty, `Validate` reports the
missing-title error — the title check runs before the text check. -/
theorem claim_C9 (card : MessageCard) (h1 : card.Title = "")
    (_h2 : card.Text = "") :
    card.Validate = .error "invalid message card: title required" := by
  simp [MessageCard.Validate, h1]

/-- Witness for C9: the freshly created card has both fields empty. -/
theorem claim_C9_witness :
    CreateMessageCard.Validate
      = .error "invalid message card: title required" :=
  claim_C9 CreateMessageCard rfl rfl

/-- C1 (counterexample to the claim as stated): at status 200 with body
`" 1"` — whose trimmed form equals the success token — the send still
fails, because the code compares the untrimmed body against the trimmed
constant; so "send succeeds iff the trimmed body equals the token" is
false. -/
theorem claim_C1_counterexample :
    goTrimSpace " 1" = ExpectedEndpointResponseText ∧ 200 < 299 ∧
    (sendWithContext goodURL sampleCard (.response 200 "200 OK" " 1")).1
      = .error (.responseFailure (.invalidResponseText " 1")) :=
  ⟨by decide, by decide, by decide⟩

/-- C1 (amended): for a response with status code < 299 on a send whose
URL and message validations pass, the send succeeds iff the body text
equals the success token `"1"` exactly — the whitespace-trim in the code
is applied to the expected constant, not to the response body — and on a
mismatch the send fails with the invalid-response-text error carrying the
actual body text. -/
theorem claim_C1 (url : String) (card : MessageCard) (statusCode : Nat)
    (status body : String)
    (hurl : ValidateWebhook url = .ok ()) (hcard : card.Validate = .ok ())
    (hcode : statusCode < 299) :
    ((sendWithContext url card (.response statusCode status body)).1 = .ok ()
        ↔ body = "1") ∧
    (body ≠ "1" →
      (sendWithContext url card (.response statusCode status body)).1
        = .error (.responseFailure (.invalidResponseText body))) := by
  have hn : ¬ statusCode ≥ 299 := by omega
  have htrim : goTrimSpace ExpectedEndpointResponseText = "1" := by decide
  by_cases hb : body = "1"
  · have hp : processResponse statusCode status body = .ok body := by
      simp [processResponse, hn, htrim, hb]
    rw [send_response_ok url card statusCode status body body hurl hcard hp]
    simp [hb]
  · have hp : processResponse statusCode status body
        = .error (.invalidResponseText body) := by
      simp [processResponse, hn, htrim, hb]
    rw [send_response_err url card statusCode status body _ hurl hcard hp]
    simp [hb]

/-- Witness for the amended C1 at a concrete successful send. -/
theorem claim_C1_witness :
    ((sendWithContext goodURL sampleCard (.response 200 "200 OK" "1")).1
        = .ok () ↔ ("1" : String) = "1") ∧
    (("1" : String) ≠ "1" →
      (sendWithContext goodURL sampleCard (.response 200 "200 OK" "1")).1
        = .error (.responseFailure (.invalidResponseText "1"))) :=
  claim_C1 goodURL sampleCard 200 "200 OK" "1" (by decide) (by decide)
    (by omega)

/-- C2 (counterexample to the claim as stated): the URL
`https://a.webhook.office.com.evil.com/x` parses, but its host
`a.webhook.office.com.evil.com` matches none of the four claimed host
patterns — yet `ValidateWebhook` accepts it, because the regex is anchored
only at the start of the string; so "validation succeeds exactly when the
host matches those patterns" is false. -/
theorem claim_C2_counterexample :
    ValidateWebhook "https://a.webhook.office.com.evil.com/x" = .ok () ∧
    urlHost "https://a.webhook.office.com.evil.com/x"
      = "a.webhook.office.com.evil.com" ∧
    specValidWebhook "https://a.webhook.office.com.evil.com/x" = false :=
  ⟨by decide, by decide, by decide⟩

/-- C2 (amended): `ValidateWebhook` succeeds exactly when the string
parses as a URL and matches the start-anchored pattern — a `https://`
prefix followed by either `outlook`, or any newline-free run ending in
`.webhook`, then `.office.com` or `.office365.com`, with arbitrary
trailing text (the match is not anchored at the end and not restricted to
the host component); the example URLs listed in the claim are accepted and
rejected exactly as claimed. -/
theorem claim_C2 :
    (∀ s, ValidateWebhook s = .ok () ↔
      urlParseOk s = true ∧ RegexMatchSpec s) ∧
    ValidateWebhook "https://foo.webhook.office.com/x" = .ok () ∧
    ValidateWebhook "https://outlook.office365.com/x" = .ok () ∧
    ValidateWebhook "http://foo.webhook.office.com"
      = .error (.patternMismatch "http://foo.webhook.office.com") ∧
    ValidateWebhook "https://evil.com/webhook"
      = .error (.patternMismatch "https://evil.com/webhook") ∧
    ValidateWebhook "://bad" = .error (.parseFailure "://bad") := by
  refine ⟨?_, by decide, by decide, by decide, by decide, by decide⟩
  intro s
  rw [validateWebhook_ok_iff]
  exact and_congr_right fun _ => regexMatch_iff s

/-- C5: `sendWithContext` performs its steps in the fixed order —
webhook-URL validation, message validation, `Prepare`, request
preparation, the HTTP call, response processing — and the first failing
step aborts the call with that step's distinct error kind, no later step
being performed (the step trace stops at the failure). -/
theorem claim_C5 (url : String) (card : MessageCard) (outcome : HTTPOutcome) :
    (∀ e, ValidateWebhook url = .error e →
      sendWithContext url card outcome =
        (.error (.invalidDestination e), card, [.validateURL])) ∧
    (∀ e, ValidateWebhook url = .ok () → card.Validate = .error e →
      sendWithContext url card outcome =
        (.error (.invalidMessage e), card, [.validateURL, .validateMsg])) ∧
    (∀ m, ValidateWebhook url = .ok () → card.Validate = .ok () →
      outcome = .transportError m →
      sendWithContext url card outcome =
        (.error (.sendFailure m),
          { card with payload := some (jsonMarshal card) },
          [.validateURL, .validateMsg, .prepareMsg, .prepareReq,
            .httpCall])) ∧
    (∀ statusCode status body e, ValidateWebhook url = .ok () →
      card.Validate = .ok () → outcome = .response statusCode status body →
      processResponse statusCode status body = .error e →
      sendWithContext url card outcome =
        (.error (.responseFailure e),
          { card with payload := some (jsonMarshal card) },
          [.validateURL, .validateMsg, .prepareMsg, .prepareReq, .httpCall,
            .processResp])) ∧
    (∀ statusCode status body r, ValidateWebhook url = .ok () →
      card.Validate = .ok () → outcome = .response statusCode status body →
      processResponse statusCode status body = .ok r →
      sendWithContext url card outcome =
        (.ok (), { card with payload := some (jsonMarshal card) },
          [.validateURL, .validateMsg, .prepareMsg, .prepareReq, .httpCall,
            .processResp])) := by
  refine ⟨?_, ?_, ?_, ?_, ?_⟩
  · intro e h
    exact send_invalidURL url card outcome e h
  · intro e h1 h2
    exact send_invalidMsg url card outcome e h1 h2
  · rintro m h1 h2 rfl
    exact send_transport url card m h1 h2
  · rintro statusCode status body e h1 h2 rfl hp
    exact send_response_err url card statusCode status body e h1 h2 hp
  · rintro statusCode status body r h1 h2 rfl hp
    exact send_response_ok url card statusCode status body r h1 h2 hp

/-- Witness for C5: one concrete send per step-outcome — URL rejection,
message rejection, transport failure, and full success. -/
theorem claim_C5_witness :
    sendWithContext "https://evil.com/webhook" sampleCard
        (.response 200 "200 OK" "1") =
      (.error (.invalidDestination
          (.patternMismatch "https://evil.com/webhook")),
        sampleCard, [.validateURL]) ∧
    sendWithContext goodURL CreateMessageCard (.response 200 "200 OK" "1") =
      (.error (.invalidMessage "invalid message card: title required"),
        CreateMessageCard, [.validateURL, .validateMsg]) ∧
    sendWithContext goodURL sampleCard
        (.transportError "context deadline exceeded") =
      (.error (.sendFailure "context deadline exceeded"), sampleCardPrepared,
        [.validateURL, .validateMsg, .prepareMsg, .prepareReq, .httpCall]) ∧
    sendWithContext goodURL sampleCard (.response 200 "200 OK" "1") =
      (.ok (), sampleCardPrepared,
        [.validateURL, .validateMsg, .prepareMsg, .prepareReq, .httpCall,
          .processResp]) :=
  ⟨(claim_C5 "https://evil.com/webhook" sampleCard
        (.response 200 "200 OK" "1")).1
      (.patternMismatch "https://evil.com/webhook") (by decide),
   (claim_C5 goodURL CreateMessageCard (.response 200 "200 OK" "1")).2.1
      "invalid message card: title required" (by decide) (by decide),
   (claim_C5 goodURL sampleCard
        (.transportError "context deadline exceeded")).2.2.1
      "context deadline exceeded" (by decide) (by decide) rfl,
   (claim_C5 goodURL sampleCard (.response 200 "200 OK" "1")).2.2.2.2
      200 "200 OK" "1" "1" (by decide) (by decide) rfl (by decide)⟩

/-- C8: the send timeout constant is exactly 5 seconds (5e9 nanoseconds,
`5 * time.Second`), `Send` wraps the single `sendWithContext` call in that
one timeout context, a transport-level failure — which is how an in-flight
timeout or cancellation surfaces — is returned to the caller as an error,
and no trace ever contains more than one HTTP call (no retry). -/
theorem claim_C8 :
    WebhookSendTimeout = 5 * 1000000000 ∧
    (∀ url card m, ValidateWebhook url = .ok () → card.Validate = .ok () →
      (Send url card (.transportError m)).1 = .error (.sendFailure m)) ∧
    (∀ url card outcome,
      ((Send url card outcome).2.2.count SendStep.httpCall) ≤ 1) := by
  refine ⟨rfl, ?_, ?_⟩
  · intro url card m h1 h2
    rw [Send, send_transport url card m h1 h2]
  · intro url card outcome
    rw [Send]
    cases hv : ValidateWebhook url with
    | error e =>
        rw [send_invalidURL url card outcome e hv]
        exact Nat.zero_le 1
    | ok u =>
        cases u
        cases hm : card.Validate with
        | error e =>
            rw [send_invalidMsg url card outcome e hv hm]
            exact Nat.zero_le 1
        | ok u2 =>
            cases u2
            cases outcome with
            | transportError m =>
                rw [send_transport url card m hv hm]
                exact Nat.le_refl 1
            | response sc st b =>
                cases hp : processResponse sc st b with
                | error e =>
                    rw [send_response_err url card sc st b e hv hm hp]
                    exact Nat.le_refl 1
                | ok r =>
                    rw [send_response_ok url card sc st b r hv hm hp]
                    exact Nat.le_refl 1

/-- Witness for C8 at a concrete timed-out send. -/
theorem claim_C8_witness :
    (Send goodURL sampleCard (.transportError "context deadline exceeded")).1
      = .error (.sendFailure "context deadline exceeded") :=
  claim_C8.2.1 goodURL sampleCard "context deadline exceeded" (by decide)
    (by decide)

/-- C10: when webhook-URL validation or message validation fails, the send
returns without `Prepare` ever running, and the card — payload buffer and
all other fields — is exactly as it was before the call. -/
theorem claim_C10 (url : String) (card : MessageCard) (outcome : HTTPOutcome)
    (h : (∃ e, ValidateWebhook url = .error e) ∨
      ∃ e, card.Validate = .error e) :
    (sendWithContext url card outcome).2.1 = card ∧
    SendStep.prepareMsg ∉ (sendWithContext url card outcome).2.2 := by
  rcases h with ⟨e, he⟩ | ⟨e, he⟩
  · rw [send_invalidURL url card outcome e he]
    exact ⟨rfl, by simp⟩
  · cases hv : ValidateWebhook url with
    | error e' =>
        rw [send_invalidURL url card outcome e' hv]
        exact ⟨rfl, by simp⟩
    | ok u =>
        cases u
        rw [send_invalidMsg url card outcome e hv he]
        exact ⟨rfl, by simp⟩

/-- Witness for C10: a send to a rejected URL leaves the card untouched
and never reaches `Prepare`. -/
theorem claim_C10_witness :
    (sendWithContext "https://evil.com/webhook" sampleCard
        (.response 200 "200 OK" "1")).2.1 = sampleCard ∧
    SendStep.prepareMsg ∉
      (sendWithContext "https://evil.com/webhook" sampleCard
        (.response 200 "200 OK" "1")).2.2 :=
  claim_C10 "https://evil.com/webhook" sampleCard (.response 200 "200 OK" "1")
    (Or.inl ⟨.patternMismatch "https://evil.com/webhook", by decide⟩)

end TeamsMicroservice
